import Mathlib

/-!
Verification of the Ask MTO retrieval-augmented question-answering service.

This file gives a shallow embedding, in Lean, of the core logic of the
repository:

* `app/main.py` — the `/ask` and `/ask-enhanced` endpoints: follow-up
  question rewriting, the primary/fallback answer chains, the
  "idontknow" normalization, source selection, session storage and
  telemetry calls;
* `app/cosmosdb.py` — the session store module, including its
  import-time credential check and `store_session`;
* `app/config.py` — `Config.validate`;
* `scripts/rebuild_vectorstore_ocr_tfidf.py` — the OCR ingestion
  pipeline: `extract_text_with_ocr`, `analyze_with_tfidf` and
  `create_smart_chunks`.

External collaborators (the language-model chains, the OCR engine, the
PDF renderer, sklearn fit/predict, the text splitter, Cosmos DB and the
telemetry sink) are modelled as function parameters; fallible ones
return `Except String` values, mirroring Python exceptions.  Python
strings are modelled by `String` with ASCII case folding.

A note on backslashes: `app/main.py` (unlike every other file of the
repository) writes its escape sequences doubled.  Its f-strings
therefore contain the literal two-character sequence backslash-n rather
than a newline, and its normalization regex is the character class
containing backslash, the letter s, the letter W and the underscore
rather than whitespace and non-word characters.  The embedding below is
faithful to those literal semantics.
-/

namespace AskMTO

/-! ## String utilities shared by the embedding -/

/-- Boolean substring occurrence on character lists, used to model the
Python `in` operator on strings. -/
def substrAux : List Char → List Char → Bool
  | needle, [] => needle.isEmpty
  | needle, h :: t => List.isPrefixOf needle (h :: t) || substrAux needle t

/-- The test `occursIn needle hay` models the Python expression
`needle in hay` for strings (substring containment). -/
def occursIn (needle hay : String) : Bool :=
  substrAux needle.data hay.data

/-- Python `str.lower()` (ASCII case folding), stated on the character
list so that it evaluates by structural recursion. -/
def pyLower (s : String) : String :=
  String.mk (s.data.map Char.toLower)

/-- Python `str.strip()`: drop whitespace from both ends. -/
def pyStrip (s : String) : String :=
  String.mk
    (((s.data.dropWhile Char.isWhitespace).reverse.dropWhile
      Char.isWhitespace).reverse)

/-- Python string slicing `s[:n]`: the first `n` characters. -/
def pyTake (n : Nat) (s : String) : String :=
  String.mk (s.data.take n)

/-- Python `sep.join(parts)`. -/
def pyJoin (sep : String) (parts : List String) : String :=
  match parts with
  | [] => ""
  | p :: ps => ps.foldl (fun acc x => acc ++ sep ++ x) p

/-! ## Conversation context and follow-up rewriting (`app/main.py`) -/

/-- The module-level `conversation_context` dictionary of `app/main.py`
(lines 188-191): one slot holding the previous question and answer. -/
structure ConversationContext where
  last_question : String
  last_answer : String
deriving DecidableEq, Repr

/-- The fixed follow-up phrase list of `app/main.py` line 209. -/
def followup_phrases : List String :=
  ["what should i do then", "what should i do", "then what", "what then",
   "alternatives", "instead"]

/-- The scan `any(word in query.question.lower() for word in [...])`
of `app/main.py` line 209. -/
def isFollowUpQuestion (q : String) : Bool :=
  followup_phrases.any (fun word => occursIn word (pyLower q))

/-- The follow-up rewrite of `app/main.py` lines 207-211.  The f-string
on line 211 writes its escapes doubled, so the separators inside the
enriched question are the literal two characters backslash-n, not
newline characters; the Lean literal "\\n" below denotes exactly those
two characters. -/
def enhancedQuestion (ctx : ConversationContext) (q : String) : String :=
  if isFollowUpQuestion q then
    if ctx.last_question ≠ "" ∧ ctx.last_answer ≠ "" then
      "Previous question: " ++ ctx.last_question ++
        "\\nPrevious answer: " ++ ctx.last_answer ++
        "\\nFollow-up question: " ++ q
    else q
  else q

/-! ## The "idontknow" normalization (`app/main.py` line 224) -/

/-- The normalization of `app/main.py` line 224: a `re.sub` deleting
every match of the raw-string pattern `[\\s\\W_]+` from the lower-cased
answer.  Because the pattern doubles its backslashes inside a raw
string, the regex character class consists of the literal characters
backslash, s, W and underscore; the substitution deletes exactly those
characters after lower-casing. -/
def normalizeAnswer (answer : String) : String :=
  String.mk ((pyLower answer).data.filter
    (fun c => !(c == '\\' || c == 's' || c == 'W' || c == '_')))

/-- Modelled from the spec: the normalization as the specification
describes it — lower-case the answer and strip all whitespace,
punctuation and underscores, i.e. keep only alphanumeric characters.
Stated only to compare the specified behaviour with the code
normalization `normalizeAnswer`. -/
def spec_normalize (answer : String) : String :=
  String.mk ((pyLower answer).data.filter (fun c => c.isAlphanum))

/-! ## The `/ask` endpoint (`app/main.py` lines 201-254) -/

/-- A retrieved chunk, `langchain` document restricted to the one field
the endpoint reads. -/
structure Doc where
  page_content : String
deriving DecidableEq, Repr

/-- The value returned by `rag.qa_chain({"query": ...})`: the generated
answer and the retrieved source documents. -/
structure ChainResult where
  result : String
  source_documents : List Doc
deriving DecidableEq, Repr

/-- Everything observable about one `/ask` request: the response fields
(`answer`, `sources`), the overwritten conversation context, the query
that was sent to retrieval and generation, whether the fallback chain
produced the final answer, and the full retrieved document list (whose
length is reported to telemetry). -/
structure AskOutcome where
  answer : String
  sources : List String
  new_context : ConversationContext
  query_used : String
  used_fallback : Bool
  retrieved_docs : List Doc
deriving DecidableEq, Repr

/-- The pure core of `ask_question` in `app/main.py` lines 201-254:
steps 1 (follow-up rewrite), 2 (run the primary chain), 3 (fallback on
a normalized "idontknow" or empty answer), 4 (context overwrite) and 7
(answer plus at most the top 3 source texts).  The primary and fallback
chains are passed as functions. -/
def ask_question (qa_chain : String → ChainResult)
    (fallback_chain : String → String)
    (ctx : ConversationContext) (q : String) : AskOutcome :=
  let enhanced_question := enhancedQuestion ctx q
  let resp := qa_chain enhanced_question
  let answer := pyStrip resp.result
  let docs := resp.source_documents
  let normalized_answer := normalizeAnswer answer
  let fallback_fired :=
    occursIn "idontknow" normalized_answer || normalized_answer == ""
  let answer :=
    if fallback_fired then
      let fallback_question :=
        if enhanced_question ≠ q then enhanced_question else q
      pyStrip (fallback_chain fallback_question)
    else answer
  { answer := answer
    sources := (docs.take 3).map (fun d => d.page_content)
    new_context := ⟨q, answer⟩
    query_used := enhanced_question
    used_fallback := fallback_fired
    retrieved_docs := docs }

/-! ## Session store (`app/cosmosdb.py`) and the effectful endpoint -/

/-- The function `store_session` of `app/cosmosdb.py` lines 50-65: returns `false`
when no container is configured, attempts the upsert otherwise, and
catches any upsert exception, returning `false`.  The Cosmos container
upsert is an external collaborator passed as a function. -/
def store_session (container_available : Bool)
    (upsert_item : String → String → String → Except String Unit)
    (session_id question answer : String) : Bool :=
  if !container_available then false
  else
    match upsert_item session_id question answer with
    | .ok _ => true
    | .error _ => false

/-- The `/ask` endpoint with its side effects, `app/main.py` lines
201-254: the pure core `ask_question`, then step 5 (the session-store
write, wrapped in try/except at the call site, so both its result and
any exception are discarded) and step 6 (`track_rag_performance`, which
is called with no exception handler, so an exception raised by it
propagates to the caller; the `track_request` decorator in
`app/monitoring.py` lines 138-151 re-raises it).  `track` receives the
original question, the final answer and the retrieved document count;
the wall-clock duration is not modelled. -/
def ask_endpoint (qa_chain : String → ChainResult)
    (fallback_chain : String → String)
    (store : String → String → String → Except String Bool)
    (track : String → String → Nat → Except String Unit)
    (session_id : String) (ctx : ConversationContext) (q : String) :
    Except String AskOutcome :=
  let out := ask_question qa_chain fallback_chain ctx q
  let _stored := store session_id q out.answer
  match track q out.answer out.retrieved_docs.length with
  | .error e => .error e
  | .ok _ => .ok out

/-! ## Sample collaborators used by the concrete witnesses -/

/-- A concrete retrieved-document list with four chunks. -/
def sampleDocs : List Doc :=
  [⟨"alpha"⟩, ⟨"beta"⟩, ⟨"gamma"⟩, ⟨"delta"⟩]

/-- A concrete primary chain that always answers and retrieves
`sampleDocs`. -/
def sampleQaChain : String → ChainResult :=
  fun _ => ⟨"An answer.", sampleDocs⟩

/-- A concrete fallback chain. -/
def sampleFallback : String → String :=
  fun _ => "Fallback answer."

/-! ## Claims C1-C4 -/

/-- Claim C1, counterexample to the claim as stated: for a follow-up
question with a non-empty prior context, the question sent to retrieval
and generation is NOT the claimed string with newline separators —
`app/main.py` line 211 writes the f-string escapes doubled, so the
separators are the literal characters backslash-n. -/
theorem c1_counterexample_newline :
    isFollowUpQuestion "What then?" = true ∧
    (ask_question (fun _ => ⟨"Answer.", []⟩) (fun _ => "fb")
        ⟨"Prev Q", "Prev A"⟩ "What then?").query_used ≠
      "Previous question: Prev Q\nPrevious answer: Prev A\nFollow-up question: What then?" := by
  decide

/-- Claim C1 (amended): if the question contains a follow-up phrase
case-insensitively and both slots of the prior context are non-empty,
the question sent to retrieval and generation embeds the prior question
and answer verbatim, separated by the literal two-character sequence
backslash-n; in every other case it is the original question unchanged;
and the original question is the one stored in the context slot. -/
theorem c1_followup_rewrite (qa_chain : String → ChainResult)
    (fallback_chain : String → String)
    (ctx : ConversationContext) (q : String) :
    ((isFollowUpQuestion q = true ∧ ctx.last_question ≠ "" ∧
        ctx.last_answer ≠ "") →
      (ask_question qa_chain fallback_chain ctx q).query_used =
        "Previous question: " ++ ctx.last_question ++
          "\\nPrevious answer: " ++ ctx.last_answer ++
          "\\nFollow-up question: " ++ q) ∧
    ((isFollowUpQuestion q = false ∨ ctx.last_question = "" ∨
        ctx.last_answer = "") →
      (ask_question qa_chain fallback_chain ctx q).query_used = q) ∧
    (ask_question qa_chain fallback_chain ctx q).new_context.last_question
      = q := by
  refine ⟨?_, ?_, ?_⟩
  · rintro ⟨h1, h2, h3⟩
    simp [ask_question, enhancedQuestion, h1, h2, h3]
  · rintro (h | h | h) <;> simp [ask_question, enhancedQuestion, h]
  · rfl

/-- Claim C1, witness: the amended rewrite at a concrete request. -/
theorem c1_witness :
    (ask_question (fun _ => ⟨"Answer.", []⟩) (fun _ => "fb")
        ⟨"Prev Q", "Prev A"⟩ "What then?").query_used =
      "Previous question: Prev Q\\nPrevious answer: Prev A\\nFollow-up question: What then?" :=
  (c1_followup_rewrite (fun _ => ⟨"Answer.", []⟩) (fun _ => "fb")
    ⟨"Prev Q", "Prev A"⟩ "What then?").1 ⟨by decide, by decide, by decide⟩

/-- Claim C2: the code contradicts the claim.  A primary answer
"I dont know." normalizes, under the specified normalization, to
"idontknow", so per the claim the fallback chain must produce the final
answer; but the code normalization of `app/main.py` line 224 deletes
only the characters backslash, s, W and underscore, leaves the spaces
in place, does not detect "idontknow", and returns the primary answer
literally. -/
theorem c2_idontknow_missed :
    occursIn "idontknow" (spec_normalize "I dont know.") = true ∧
    occursIn "idontknow" (normalizeAnswer "I dont know.") = false ∧
    (ask_question (fun _ => ⟨"I dont know.", sampleDocs⟩)
        (fun _ => "General guidance answer")
        ⟨"", ""⟩ "Can I park on a highway?").answer = "I dont know." ∧
    (ask_question (fun _ => ⟨"I dont know.", sampleDocs⟩)
        (fun _ => "General guidance answer")
        ⟨"", ""⟩ "Can I park on a highway?").used_fallback = false := by
  decide

/-- Claim C3: the response sources list has length at most 3, every
element is the text of a chunk retrieved by this request, and the
sources do not depend on the fallback chain (so they are unchanged when
the fallback produced the final answer). -/
theorem c3_sources_top3 (qa_chain : String → ChainResult)
    (fallback_chain : String → String)
    (ctx : ConversationContext) (q : String) :
    (ask_question qa_chain fallback_chain ctx q).sources.length ≤ 3 ∧
    (∀ s ∈ (ask_question qa_chain fallback_chain ctx q).sources,
      ∃ d ∈ (qa_chain (enhancedQuestion ctx q)).source_documents,
        s = d.page_content) ∧
    (∀ fb2 : String → String,
      (ask_question qa_chain fallback_chain ctx q).sources =
        (ask_question qa_chain fb2 ctx q).sources) := by
  refine ⟨?_, ?_, fun fb2 => rfl⟩
  · simp only [ask_question, List.length_map, List.length_take]
    omega
  · intro s hs
    simp only [ask_question, List.mem_map] at hs
    obtain ⟨d, hd, rfl⟩ := hs
    exact ⟨d, List.take_subset _ _ hd, rfl⟩

/-- Claim C3, witness: at a concrete request retrieving four chunks,
the sources have length at most 3 and the first source text comes from
a retrieved chunk. -/
theorem c3_witness :
    (ask_question sampleQaChain sampleFallback ⟨"", ""⟩
        "How do I get a G1?").sources.length ≤ 3 ∧
    ∃ d ∈ (sampleQaChain (enhancedQuestion ⟨"", ""⟩
        "How do I get a G1?")).source_documents, "alpha" = d.page_content :=
  ⟨(c3_sources_top3 sampleQaChain sampleFallback ⟨"", ""⟩
      "How do I get a G1?").1,
   (c3_sources_top3 sampleQaChain sampleFallback ⟨"", ""⟩
      "How do I get a G1?").2.1 "alpha" (by decide)⟩

/-- Claim C4, counterexample to the claim as stated: an exception
raised by the telemetry call (`track_rag_performance`, `app/main.py`
line 243) is NOT caught — the call stands outside any try/except, so
the endpoint fails instead of returning its normal response. -/
theorem c4_counterexample_telemetry :
    ask_endpoint sampleQaChain sampleFallback (fun _ _ _ => .ok true)
        (fun _ _ _ => .error "telemetry failure") "sid-1" ⟨"", ""⟩
        "Hello" =
      .error "telemetry failure" := by
  rfl

/-- Claim C4 (amended): a failure of the session-store write is caught
and never propagates — for every behaviour of the store collaborator,
including one that raises, the endpoint returns its normal
answer-and-sources response unchanged, provided the telemetry call
itself returns normally.  (The telemetry call is not guarded in the
endpoint; only the session-store write is.) -/
theorem c4_store_best_effort (qa_chain : String → ChainResult)
    (fallback_chain : String → String)
    (store : String → String → String → Except String Bool)
    (track : String → String → Nat → Except String Unit)
    (session_id : String) (ctx : ConversationContext) (q : String)
    (htrack : track q (ask_question qa_chain fallback_chain ctx q).answer
        (ask_question qa_chain fallback_chain ctx q).retrieved_docs.length
      = .ok ()) :
    ask_endpoint qa_chain fallback_chain store track session_id ctx q =
      .ok (ask_question qa_chain fallback_chain ctx q) := by
  simp [ask_endpoint, htrack]

/-- Claim C4, witness: with a session store that raises, the endpoint
still returns its normal response. -/
theorem c4_witness :
    ask_endpoint sampleQaChain sampleFallback
        (fun _ _ _ => .error "store down") (fun _ _ _ => .ok ())
        "sid-2" ⟨"", ""⟩ "Hi" =
      .ok (ask_question sampleQaChain sampleFallback ⟨"", ""⟩ "Hi") :=
  c4_store_best_effort sampleQaChain sampleFallback
    (fun _ _ _ => .error "store down") (fun _ _ _ => .ok ())
    "sid-2" ⟨"", ""⟩ "Hi" rfl

/-! ## Configuration and startup (`app/config.py`, `app/cosmosdb.py`) -/

/-- The environment variables the startup path reads. -/
structure Env where
  cosmos_endpoint : Option String
  cosmos_key : Option String
  openai_api_key : Option String
deriving DecidableEq, Repr

/-- Python truthiness of `os.getenv(...)`: false for an unset variable
(`None`) and for the empty string. -/
def truthy : Option String → Bool
  | none => false
  | some s => !(s == "")

/-- The module-level credential check of `app/cosmosdb.py` lines 20-21:
`if not COSMOS_ENDPOINT or not COSMOS_KEY: raise ValueError(...)`.
It runs when the module is imported. -/
def cosmosdb_module_init (env : Env) : Except String Unit :=
  if !(truthy env.cosmos_endpoint) || !(truthy env.cosmos_key) then
    .error "❌ Cosmos DB credentials not found in environment variables."
  else .ok ()

/-- The method `Config.validate` of `app/config.py` lines 27-33: returns `false`
with a printed warning when the model API key is unset, `true`
otherwise; it never raises. -/
def config_validate (env : Env) : Bool :=
  truthy env.openai_api_key

/-- Service startup as `app/main.py` performs it: line 56 imports
`app.cosmosdb` (running its module-level credential check), then line
76 calls `config.validate()` whose Boolean result is discarded.  The
returned Bool is the validate result; an `error` value means the
process fails to start. -/
def app_startup (env : Env) : Except String Bool :=
  match cosmosdb_module_init env with
  | .error e => .error e
  | .ok _ => .ok (config_validate env)

/-- Claim C9: the code contradicts the claim.  With the session-store
endpoint and credentials absent, importing `app/cosmosdb.py` raises
`ValueError` at module load (lines 20-21), so the service does not
start at all — even with the model API key present.  The second
conjunct shows the contradiction inside the module itself: its own
`store_session` is written to skip storage gracefully when no container
is configured. -/
theorem c9_startup_raises_without_cosmos :
    app_startup ⟨none, none, some "sk-test-key"⟩ =
      .error "❌ Cosmos DB credentials not found in environment variables." ∧
    store_session false (fun _ _ _ => .ok ()) "sid" "q" "a" = false :=
  ⟨rfl, rfl⟩

/-! ## The `/ask-enhanced` endpoint (`app/main.py` lines 315-386) -/

/-- The `/ask-enhanced` response object.  The success path of
`app/main.py` lines 369-375 carries a `session_id` and no `error`; the
degraded path of lines 380-386 carries an `error` and no `session_id`.
Absent dictionary keys are modelled as `none`. -/
structure EnhancedResponse where
  answer : String
  sources : List String
  followup_questions : List String
  enhanced : Bool
  session_id : Option String
  error : Option String
deriving DecidableEq, Repr

/-- The degraded response built by the `except` handler of
`app/main.py` lines 377-386. -/
def degraded_response (e : String) : EnhancedResponse :=
  { answer := "Sorry, I encountered an error processing your enhanced request. Please try the basic /ask endpoint."
    sources := []
    followup_questions := []
    enhanced := false
    session_id := none
    error := some e }

/-- The body of the `try` block of `ask_question_enhanced`
(`app/main.py` lines 322-375).  Every external call may raise, and a
raise anywhere aborts the rest of the body (Python exception
propagation as `Except` chaining).  `enhance` returns the optional
`enhanced_answer` and `success` entries of the enhancement dict (the
`.get` defaults of lines 343 and 373 are applied here); `followups`
returns the optional `followup_questions` entry (default of line 347).
The overwrite of the global conversation context (lines 356-358) is not
modelled: claim C10 concerns only the response value and exception
propagation. -/
def ask_enhanced_body
    (qa_chain : String → Except String ChainResult)
    (fallback_chain : String → Except String String)
    (enhance : String → String → String →
      Except String (Option String × Option Bool))
    (followups : String → String → Except String (Option (List String)))
    (store_conversation : String → String → String → Except String Unit)
    (store : String → String → String → Except String Bool)
    (track : String → String → Nat → Except String Unit)
    (session_id : String) (ctx : ConversationContext) (q : String) :
    Except String EnhancedResponse :=
  let enhanced_question := enhancedQuestion ctx q
  match qa_chain enhanced_question with
  | .error e => .error e
  | .ok resp =>
    let base_answer := pyStrip resp.result
    let docs := resp.source_documents
    let normalized_answer := normalizeAnswer base_answer
    let fallback_fired :=
      occursIn "idontknow" normalized_answer || normalized_answer == ""
    let base_answer_result : Except String String :=
      if fallback_fired then
        let fallback_question :=
          if enhanced_question ≠ q then enhanced_question else q
        match fallback_chain fallback_question with
        | .error e => .error e
        | .ok a => .ok (pyStrip a)
      else .ok base_answer
    match base_answer_result with
    | .error e => .error e
    | .ok base_answer =>
      let context_text :=
        pyJoin " " ((docs.take 3).map (fun d => pyTake 200 d.page_content))
      match enhance q base_answer context_text with
      | .error e => .error e
      | .ok enh =>
        let final_answer := enh.1.getD base_answer
        match followups q final_answer with
        | .error e => .error e
        | .ok fres =>
          match store_conversation q final_answer session_id with
          | .error e => .error e
          | .ok _ =>
            match store session_id q final_answer with
            | .error e => .error e
            | .ok _ =>
              match track q final_answer docs.length with
              | .error e => .error e
              | .ok _ =>
                .ok { answer := final_answer
                      sources := (docs.take 3).map (fun d => d.page_content)
                      followup_questions := fres.getD []
                      enhanced := enh.2.getD false
                      session_id := some session_id
                      error := none }

/-- The endpoint `ask_question_enhanced` of `app/main.py` lines 315-386.
`get_instance` models `RAGComponents.get_instance()` on line 320, which
stands BEFORE the `try` block: if component loading raises, the
exception propagates to the caller (and the `track_request` decorator
re-raises it).  Everything inside the `try` is `ask_enhanced_body`; any
exception there is turned into the degraded response. -/
def ask_question_enhanced
    (get_instance : Except String Unit)
    (qa_chain : String → Except String ChainResult)
    (fallback_chain : String → Except String String)
    (enhance : String → String → String →
      Except String (Option String × Option Bool))
    (followups : String → String → Except String (Option (List String)))
    (store_conversation : String → String → String → Except String Unit)
    (store : String → String → String → Except String Bool)
    (track : String → String → Nat → Except String Unit)
    (session_id : String) (ctx : ConversationContext) (q : String) :
    Except String EnhancedResponse :=
  match get_instance with
  | .error e => .error e
  | .ok _ =>
    match ask_enhanced_body qa_chain fallback_chain enhance followups
        store_conversation store track session_id ctx q with
    | .ok r => .ok r
    | .error e => .ok (degraded_response e)

/-- Helper: every successful result of the `try`-block body carries
`session_id = some session_id` and no `error` field. -/
theorem ask_enhanced_body_ok_shape
    (qa_chain : String → Except String ChainResult)
    (fallback_chain : String → Except String String)
    (enhance : String → String → String →
      Except String (Option String × Option Bool))
    (followups : String → String → Except String (Option (List String)))
    (store_conversation : String → String → String → Except String Unit)
    (store : String → String → String → Except String Bool)
    (track : String → String → Nat → Except String Unit)
    (session_id : String) (ctx : ConversationContext) (q : String)
    (r : EnhancedResponse)
    (h : ask_enhanced_body qa_chain fallback_chain enhance followups
        store_conversation store track session_id ctx q = .ok r) :
    r.session_id = some session_id ∧ r.error = none := by
  simp only [ask_enhanced_body] at h
  repeat' split at h
  all_goals cases h
  all_goals exact ⟨rfl, rfl⟩

/-- Claim C10, counterexample to the claim as stated: an exception
raised while loading the RAG components occurs on `app/main.py` line
320, BEFORE the `try` block of `/ask-enhanced`, and propagates to the
caller as a server error instead of producing the degraded JSON
response. -/
theorem c10_counterexample_init_propagates :
    ask_question_enhanced (.error "Vectorstore not found at vectorstore")
        (fun _ => .ok ⟨"A.", []⟩) (fun _ => .ok "fb")
        (fun _ _ _ => .ok (none, none)) (fun _ _ => .ok none)
        (fun _ _ _ => .ok ()) (fun _ _ _ => .ok true)
        (fun _ _ _ => .ok ()) "sid" ⟨"", ""⟩ "Hi" =
      .error "Vectorstore not found at vectorstore" :=
  rfl

/-- Claim C10 (amended): once the RAG components have been acquired,
the endpoint never lets an exception propagate — it always returns a
response; when any step of the `try` body raises, the response is the
fixed apology with empty sources, empty follow-up questions,
`enhanced = false`, an error message and no `session_id`; on the
success path the body result carries `session_id`.  An exception while
acquiring the RAG components (before the `try`) still propagates. -/
theorem c10_enhanced_degrades
    (qa_chain : String → Except String ChainResult)
    (fallback_chain : String → Except String String)
    (enhance : String → String → String →
      Except String (Option String × Option Bool))
    (followups : String → String → Except String (Option (List String)))
    (store_conversation : String → String → String → Except String Unit)
    (store : String → String → String → Except String Bool)
    (track : String → String → Nat → Except String Unit)
    (session_id : String) (ctx : ConversationContext) (q : String) :
    (∃ r, ask_question_enhanced (.ok ()) qa_chain fallback_chain enhance
        followups store_conversation store track session_id ctx q = .ok r) ∧
    (∀ e, ask_enhanced_body qa_chain fallback_chain enhance followups
        store_conversation store track session_id ctx q = .error e →
      ask_question_enhanced (.ok ()) qa_chain fallback_chain enhance
          followups store_conversation store track session_id ctx q =
        .ok (degraded_response e)) ∧
    (∀ r, ask_enhanced_body qa_chain fallback_chain enhance followups
        store_conversation store track session_id ctx q = .ok r →
      ask_question_enhanced (.ok ()) qa_chain fallback_chain enhance
          followups store_conversation store track session_id ctx q =
        .ok r ∧ r.session_id = some session_id) ∧
    (∀ e, (degraded_response e).answer =
        "Sorry, I encountered an error processing your enhanced request. Please try the basic /ask endpoint." ∧
      (degraded_response e).sources = [] ∧
      (degraded_response e).followup_questions = [] ∧
      (degraded_response e).enhanced = false ∧
      (degraded_response e).session_id = none ∧
      (degraded_response e).error = some e) := by
  refine ⟨?_, ?_, ?_, fun e => ⟨rfl, rfl, rfl, rfl, rfl, rfl⟩⟩
  · cases hb : ask_enhanced_body qa_chain fallback_chain enhance followups
        store_conversation store track session_id ctx q with
    | ok r => exact ⟨r, by simp [ask_question_enhanced, hb]⟩
    | error e =>
        exact ⟨degraded_response e, by simp [ask_question_enhanced, hb]⟩
  · intro e he
    simp [ask_question_enhanced, he]
  · intro r hr
    exact ⟨by simp [ask_question_enhanced, hr],
      (ask_enhanced_body_ok_shape qa_chain fallback_chain enhance followups
        store_conversation store track session_id ctx q r hr).1⟩

/-- Claim C10, witness: with a failing enhancement step, the endpoint
returns the degraded response rather than an error. -/
theorem c10_witness :
    ask_question_enhanced (.ok ()) (fun _ => .ok ⟨"An answer.", [⟨"alpha"⟩]⟩)
        (fun _ => .ok "fb") (fun _ _ _ => .error "kernel down")
        (fun _ _ => .ok none) (fun _ _ _ => .ok ()) (fun _ _ _ => .ok true)
        (fun _ _ _ => .ok ()) "sid-3" ⟨"", ""⟩ "Hi" =
      .ok (degraded_response "kernel down") :=
  (c10_enhanced_degrades (fun _ => .ok ⟨"An answer.", [⟨"alpha"⟩]⟩)
      (fun _ => .ok "fb") (fun _ _ _ => .error "kernel down")
      (fun _ _ => .ok none) (fun _ _ _ => .ok ()) (fun _ _ _ => .ok true)
      (fun _ _ _ => .ok ()) "sid-3" ⟨"", ""⟩ "Hi").2.1 "kernel down" rfl

/-! ## OCR extraction (`scripts/rebuild_vectorstore_ocr_tfidf.py`
lines 53-103) -/

/-- A regex word character (the `\w` class, ASCII reading). -/
def wordChar (c : Char) : Bool :=
  c.isAlphanum || c == '_'

/-- The characters kept by the cleaning step on line 82: word
characters, whitespace, and the listed punctuation (every other
character is replaced by a space). -/
def keptChar (c : Char) : Bool :=
  wordChar c || c.isWhitespace || ".,!?()[]\x7b\x7d:;".data.contains c

/-- The whitespace collapse of line 83 (a `re.sub` replacing every
match of the pattern `\s+` by one space): each maximal whitespace run
becomes a single space.  The Boolean argument records whether the
previous character was whitespace. -/
def collapseWsAux : Bool → List Char → List Char
  | _, [] => []
  | prevWs, c :: cs =>
    if c.isWhitespace then
      if prevWs then collapseWsAux true cs
      else ' ' :: collapseWsAux true cs
    else c :: collapseWsAux false cs

/-- The per-page text cleaning of lines 82-84: replace special
characters by spaces, collapse whitespace runs, strip. -/
def clean_text (t : String) : String :=
  let replaced := t.data.map (fun c => if keptChar c then c else ' ')
  pyStrip (String.mk (collapseWsAux false replaced))

/-- The minimum-length cut-off of line 86 (`len(text) > 100`). -/
def min_text_length : Nat := 100

/-- What one page contributes to the extracted corpus (the body of the
per-page loop, lines 69-94): `none` when the OCR call raises (the
exception is caught and the loop continues) or when the cleaned text is
empty or not longer than `min_text_length`; otherwise the cleaned text.
The page image type, the image preprocessing and the OCR engine are
parameters. -/
def page_contribution {Page : Type} (preprocess : Page → Page)
    (ocr : Page → Except String String) (img : Page) : Option String :=
  match ocr (preprocess img) with
  | .error _ => none
  | .ok raw =>
    let text := clean_text raw
    if text ≠ "" ∧ min_text_length < text.length then some text else none

/-- The function `extract_text_with_ocr` of lines 53-103.
`convert_from_path`
models the PDF rendering call of lines 59-65: if it raises, the outer
`except` of lines 101-103 catches the exception and the function
returns the empty string — it raises nothing.  Otherwise the retained
page texts are joined with a blank line. -/
def extract_text_with_ocr {Page : Type}
    (convert_from_path : Except String (List Page))
    (preprocess : Page → Page) (ocr : Page → Except String String) :
    String :=
  match convert_from_path with
  | .error _ => ""
  | .ok images =>
    pyJoin "\n\n" (images.filterMap (page_contribution preprocess ocr))

/-- A 120-character OCR output used by concrete witnesses; its cleaned
form is itself and exceeds the minimum length. -/
def longPageText : String :=
  String.mk (List.replicate 120 'a')

/-- A concrete OCR engine over pages numbered by `Nat` that crashes on
page 2 and reads `longPageText` elsewhere. -/
def sampleOcr : Nat → Except String String :=
  fun n => if n == 2 then .error "ocr crash" else .ok longPageText

/-- A concrete OCR engine whose page 2 yields text below the minimum
length. -/
def sampleOcrShort : Nat → Except String String :=
  fun n => if n == 2 then .ok "Short text." else .ok longPageText

/-- Claim C5, counterexample to the claim as stated: when the PDF
cannot be opened or rendered, `extract_text_with_ocr` does not fail
with an `ExtractionError` (no such failure path exists anywhere in the
repository) — the exception is caught on lines 101-103 and the function
returns the empty string normally. -/
theorem c5_counterexample_no_error :
    extract_text_with_ocr
        (Except.error "cannot open PDF" : Except String (List Unit)) id
        (fun _ => .ok "page text") = "" :=
  rfl

/-- Claim C5 (amended): the operation never raises.  When the PDF
cannot be opened or rendered it returns the empty string; every
per-page OCR failure is caught and that page is skipped while
extraction continues with the remaining pages; on success it returns
the blank-line-joined concatenation of all retained cleaned page
texts. -/
theorem c5_extraction_behaviour {Page : Type}
    (convert_from_path : Except String (List Page))
    (preprocess : Page → Page) (ocr : Page → Except String String) :
    (∀ e, convert_from_path = .error e →
      extract_text_with_ocr convert_from_path preprocess ocr = "") ∧
    (∀ (l1 : List Page) (img : Page) (l2 : List Page) (e : String),
      ocr (preprocess img) = .error e →
      extract_text_with_ocr (.ok (l1 ++ img :: l2)) preprocess ocr =
        extract_text_with_ocr (.ok (l1 ++ l2)) preprocess ocr) ∧
    (∀ images, convert_from_path = .ok images →
      extract_text_with_ocr convert_from_path preprocess ocr =
        pyJoin "\n\n"
          (images.filterMap (page_contribution preprocess ocr))) := by
  refine ⟨?_, ?_, ?_⟩
  · intro e he
    rw [he]
    rfl
  · intro l1 img l2 e hocr
    simp [extract_text_with_ocr, List.filterMap_append, List.filterMap_cons,
      page_contribution, hocr]
  · intro images hi
    rw [hi]
    rfl

/-- Claim C5, witness: a three-page document whose second page crashes
the OCR engine extracts exactly what the same document without that
page extracts. -/
theorem c5_witness :
    extract_text_with_ocr (.ok [1, 2, 3]) id sampleOcr =
      extract_text_with_ocr (.ok [1, 3]) id sampleOcr :=
  (c5_extraction_behaviour
    (Except.ok [1, 2, 3] : Except String (List Nat)) id
    sampleOcr).2.1 [1] 2 [3] "ocr crash" rfl

/-- Claim C6: a page retained by OCR contributes its cleaned text if
and only if that text is non-empty and longer than the minimum length;
a page below the cut-off contributes nothing to the final concatenated
text. -/
theorem c6_page_retention {Page : Type} (preprocess : Page → Page)
    (ocr : Page → Except String String) (img : Page) (raw : String)
    (h : ocr (preprocess img) = .ok raw) :
    (page_contribution preprocess ocr img = some (clean_text raw) ↔
      (clean_text raw ≠ "" ∧ min_text_length < (clean_text raw).length)) ∧
    (¬(clean_text raw ≠ "" ∧ min_text_length < (clean_text raw).length) →
      ∀ l1 l2 : List Page,
        extract_text_with_ocr (.ok (l1 ++ img :: l2)) preprocess ocr =
          extract_text_with_ocr (.ok (l1 ++ l2)) preprocess ocr) := by
  by_cases hcond :
      clean_text raw ≠ "" ∧ min_text_length < (clean_text raw).length
  · refine ⟨?_, fun hn => absurd hcond hn⟩
    simp [page_contribution, h, hcond]
  · refine ⟨?_, ?_⟩
    · simp [page_contribution, h, hcond]
    · intro _ l1 l2
      simp [extract_text_with_ocr, List.filterMap_append,
        List.filterMap_cons, page_contribution, h, hcond]

/-- Claim C6, witness: a page whose cleaned OCR yield is 11 characters
long contributes nothing — the corpus with it equals the corpus without
it. -/
theorem c6_witness :
    extract_text_with_ocr (.ok [1, 2, 3]) id sampleOcrShort =
      extract_text_with_ocr (.ok [1, 3]) id sampleOcrShort :=
  (c6_page_retention id sampleOcrShort 2 "Short text." rfl).2 (by decide)
    [1] [3]

/-! ## Insertion sort used to model Python stable sorting and numpy
argsort.  `goesBefore x y = true` places `x` strictly before `y`; with
a strict key comparison this is exactly Python stable descending sort,
with a non-strict one it is ascending argsort followed by reversal. -/

/-- Insert `x` before the first element `y` with `goesBefore x y`. -/
def insertOrd {α : Type} (goesBefore : α → α → Bool) (x : α) :
    List α → List α
  | [] => [x]
  | y :: ys =>
    if goesBefore x y then x :: y :: ys else y :: insertOrd goesBefore x ys

/-- Sort by inserting the elements left to right. -/
def sortOrd {α : Type} (goesBefore : α → α → Bool) (l : List α) :
    List α :=
  l.foldl (fun acc x => insertOrd goesBefore x acc) []

theorem mem_insertOrd {α : Type} (b : α → α → Bool) (x a : α)
    (l : List α) : a ∈ insertOrd b x l ↔ a = x ∨ a ∈ l := by
  induction l with
  | nil => simp [insertOrd]
  | cons y ys ih =>
    simp only [insertOrd]
    by_cases hb : b x y = true
    · rw [if_pos hb]
      simp
    · rw [if_neg hb]
      simp only [List.mem_cons, ih]
      tauto

theorem pairwise_insertOrd {α : Type} (b : α → α → Bool)
    (R : α → α → Prop)
    (h1 : ∀ x y, b x y = true → R x y)
    (h2 : ∀ x y, b x y = false → R y x)
    (htrans : ∀ x y z, R x y → R y z → R x z)
    (x : α) (l : List α) (hl : l.Pairwise R) :
    (insertOrd b x l).Pairwise R := by
  induction l with
  | nil => simp [insertOrd]
  | cons y ys ih =>
    rcases List.pairwise_cons.1 hl with ⟨hy, hys⟩
    simp only [insertOrd]
    by_cases hb : b x y = true
    · rw [if_pos hb]
      refine List.pairwise_cons.2 ⟨?_, hl⟩
      intro z hz
      rcases List.mem_cons.1 hz with rfl | hz
      · exact h1 _ _ hb
      · exact htrans _ _ _ (h1 _ _ hb) (hy z hz)
    · rw [if_neg hb]
      refine List.pairwise_cons.2 ⟨?_, ih hys⟩
      intro z hz
      rcases (mem_insertOrd b x z ys).1 hz with rfl | hz
      · exact h2 _ _ (eq_false_of_ne_true hb)
      · exact hy z hz

theorem pairwise_sortOrd_aux {α : Type} (b : α → α → Bool)
    (R : α → α → Prop)
    (h1 : ∀ x y, b x y = true → R x y)
    (h2 : ∀ x y, b x y = false → R y x)
    (htrans : ∀ x y z, R x y → R y z → R x z)
    (l : List α) :
    ∀ acc : List α, acc.Pairwise R →
      (l.foldl (fun acc x => insertOrd b x acc) acc).Pairwise R := by
  induction l with
  | nil => intro acc hacc; exact hacc
  | cons x xs ih =>
    intro acc hacc
    exact ih _ (pairwise_insertOrd b R h1 h2 htrans x acc hacc)

theorem pairwise_sortOrd {α : Type} (b : α → α → Bool)
    (R : α → α → Prop)
    (h1 : ∀ x y, b x y = true → R x y)
    (h2 : ∀ x y, b x y = false → R y x)
    (htrans : ∀ x y z, R x y → R y z → R x z)
    (l : List α) : (sortOrd b l).Pairwise R :=
  pairwise_sortOrd_aux b R h1 h2 htrans l [] (by simp)

theorem mem_sortOrd_aux {α : Type} (b : α → α → Bool) (a : α)
    (l : List α) :
    ∀ acc : List α,
      (a ∈ l.foldl (fun acc x => insertOrd b x acc) acc ↔
        a ∈ l ∨ a ∈ acc) := by
  induction l with
  | nil => intro acc; simp
  | cons x xs ih =>
    intro acc
    simp only [List.foldl_cons, ih, mem_insertOrd, List.mem_cons]
    tauto

theorem mem_sortOrd {α : Type} (b : α → α → Bool) (a : α)
    (l : List α) : a ∈ sortOrd b l ↔ a ∈ l := by
  simp [sortOrd, mem_sortOrd_aux]

/-! ## Term-importance analysis (`analyze_with_tfidf`,
`scripts/rebuild_vectorstore_ocr_tfidf.py` lines 105-170) -/

/-- The minimum sentence count of line 113 (`len(sentences) < 10`). -/
def min_sentence_count : Nat := 10

/-- The ranking `np.argsort(feature_scores)[::-1]` applied to the named feature
table (lines 143-146): rank the (term, mean score) pairs by score
descending; `np.argsort` is an ascending stable sort, so reversing it
puts equal scores in reversed index order, which is what a non-strict
`goesBefore` gives.  Real-valued scores are modelled as rationals. -/
def rank_terms (features : List (String × ℚ)) : List (String × ℚ) :=
  sortOrd (fun a b => decide (b.2 ≤ a.2)) features

/-- The cluster-based reordering of lines 150-162: for each cluster id
in order, append the sentences of that cluster (in original order) followed
by an empty-string separator when the cluster is non-empty, and join
with newlines. -/
def cluster_reorder (sentences : List String) (labels : List Nat)
    (n_clusters : Nat) : String :=
  let pairs := sentences.zip labels
  let clustered := (List.range n_clusters).foldl
    (fun acc cid =>
      let cluster_sentences :=
        (pairs.filter (fun p => p.2 == cid)).map Prod.fst
      if cluster_sentences.isEmpty then acc
      else acc ++ cluster_sentences ++ [""]) []
  pyJoin "\n" clustered

/-- The function `analyze_with_tfidf` of lines 105-170.
`sent_tokenize` models the
NLTK sentence splitter; `fit_transform` models the composite of
`TfidfVectorizer.fit_transform`, `get_feature_names_out` and the
`np.mean` row, returning each feature name with its mean TF-IDF score;
`fit_predict` models `KMeans.fit_predict`, returning one cluster label
per sentence — a label list of the wrong length corresponds to the
`IndexError` the Python list comprehension of line 157 would raise.
Everything inside the `try` of lines 137-167 that raises makes the
function return the original text with an empty term list (lines
168-170); the function itself never raises. -/
def analyze_with_tfidf
    (sent_tokenize : String → List String)
    (fit_transform : List String → Except String (List (String × ℚ)))
    (fit_predict : List String → Except String (List Nat))
    (text : String) (n_clusters : Nat) : String × List String :=
  let sentences := sent_tokenize text
  if sentences.length < min_sentence_count then (text, [])
  else
    let body : Except String (String × List String) :=
      match fit_transform sentences with
      | .error e => .error e
      | .ok features =>
        let important_terms := ((rank_terms features).take 50).map Prod.fst
        if n_clusters ≤ sentences.length then
          match fit_predict sentences with
          | .error e => .error e
          | .ok labels =>
            if labels.length = sentences.length then
              .ok (cluster_reorder sentences labels n_clusters,
                   important_terms)
            else .error "IndexError"
        else .ok (text, important_terms)
    match body with
    | .ok r => r
    | .error _ => (text, [])

/-- Claim C7: with fewer than 10 sentences the analysis is skipped and
the original text is returned with an empty term list; a failure of the
TF-IDF fit or of the clustering step likewise degrades to the original
text and an empty term list (the function is total - it never raises);
on the fully successful path the returned term list is the first 50
names of the feature table ranked by mean score descending, hence has
at most 50 entries. -/
theorem c7_tfidf_degradation
    (sent_tokenize : String → List String)
    (fit_transform : List String → Except String (List (String × ℚ)))
    (fit_predict : List String → Except String (List Nat))
    (text : String) (n_clusters : Nat) :
    ((sent_tokenize text).length < min_sentence_count →
      analyze_with_tfidf sent_tokenize fit_transform fit_predict text
        n_clusters = (text, [])) ∧
    (∀ e, min_sentence_count ≤ (sent_tokenize text).length →
      fit_transform (sent_tokenize text) = .error e →
      analyze_with_tfidf sent_tokenize fit_transform fit_predict text
        n_clusters = (text, [])) ∧
    (∀ e, min_sentence_count ≤ (sent_tokenize text).length →
      n_clusters ≤ (sent_tokenize text).length →
      fit_predict (sent_tokenize text) = .error e →
      analyze_with_tfidf sent_tokenize fit_transform fit_predict text
        n_clusters = (text, [])) ∧
    (∀ features labels,
      min_sentence_count ≤ (sent_tokenize text).length →
      fit_transform (sent_tokenize text) = .ok features →
      n_clusters ≤ (sent_tokenize text).length →
      fit_predict (sent_tokenize text) = .ok labels →
      labels.length = (sent_tokenize text).length →
      analyze_with_tfidf sent_tokenize fit_transform fit_predict text
          n_clusters =
        (cluster_reorder (sent_tokenize text) labels n_clusters,
         ((rank_terms features).take 50).map Prod.fst) ∧
      (analyze_with_tfidf sent_tokenize fit_transform fit_predict text
          n_clusters).2.length ≤ 50 ∧
      (rank_terms features).Pairwise (fun a b => b.2 ≤ a.2)) := by
  refine ⟨?_, ?_, ?_, ?_⟩
  · intro hshort
    simp [analyze_with_tfidf, if_pos hshort]
  · intro e hlen herr
    rw [analyze_with_tfidf]
    rw [if_neg (by omega)]
    simp [herr]
  · intro e hlen hcl herr
    rw [analyze_with_tfidf]
    rw [if_neg (by omega)]
    cases hft : fit_transform (sent_tokenize text) with
    | error e2 => simp [hft]
    | ok features => simp [hft, if_pos hcl, herr]
  · intro features labels hlen hft hcl hfp hlab
    have hmain :
        analyze_with_tfidf sent_tokenize fit_transform fit_predict text
            n_clusters =
          (cluster_reorder (sent_tokenize text) labels n_clusters,
           ((rank_terms features).take 50).map Prod.fst) := by
      rw [analyze_with_tfidf]
      rw [if_neg (by omega)]
      simp [hft, if_pos hcl, hfp, hlab]
    refine ⟨hmain, ?_, ?_⟩
    · rw [hmain]
      simp only [List.length_map, List.length_take]
      omega
    · refine pairwise_sortOrd _ _ ?_ ?_ ?_ features
      · intro x y h
        exact of_decide_eq_true h
      · intro x y h
        exact le_of_not_le (of_decide_eq_false h)
      · intro x y z hxy hyz
        exact le_trans hyz hxy

/-- Ten concrete sentences for the C7 witness. -/
def sampleSentences : List String :=
  ["s one", "s two", "s three", "s four", "s five", "s six", "s seven",
   "s eight", "s nine", "s ten"]

/-- A concrete feature table with mean TF-IDF scores. -/
def sampleFeatures : List (String × ℚ) :=
  [("road", 2), ("licence", 5), ("test", 7)]

/-- A concrete cluster labelling of the ten sample sentences into two
clusters. -/
def sampleLabels : List Nat :=
  [0, 1, 0, 1, 0, 1, 0, 1, 0, 1]

/-- Claim C7, witness: on a concrete fully successful run, the returned
term list is the feature names ranked by score descending. -/
theorem c7_witness :
    (analyze_with_tfidf (fun _ => sampleSentences)
        (fun _ => .ok sampleFeatures) (fun _ => .ok sampleLabels)
        "full corpus text" 2).2 = ["test", "licence", "road"] := by
  have h := (c7_tfidf_degradation (fun _ => sampleSentences)
      (fun _ => .ok sampleFeatures) (fun _ => .ok sampleLabels)
      "full corpus text" 2).2.2.2 sampleFeatures sampleLabels
      (by decide) rfl (by decide) rfl (by decide)
  rw [h.1]
  decide

/-! ## Smart chunking (`create_smart_chunks`,
`scripts/rebuild_vectorstore_ocr_tfidf.py` lines 172-227) -/

/-- The fixed domain keyword list of line 205. -/
def license_keywords : List String :=
  ["license", "licence", "g1", "g2", "test", "drive", "permit",
   "ontario", "ministry", "transport"]

/-- The term list of the `contains_license_terms` metadata flag of
line 222. -/
def license_flag_terms : List String :=
  ["license", "licence", "g1", "g2"]

/-- The importance score of lines 198-208: one point for each of the
top-20 important terms present in the lower-cased chunk
(case-insensitive substring match), two points for each domain keyword
present. -/
def chunk_score (important_terms : List String) (chunk : String) : Nat :=
  let chunk_lower := pyLower chunk
  let base := (important_terms.take 20).foldl
    (fun acc term => if occursIn (pyLower term) chunk_lower
                     then acc + 1 else acc) 0
  license_keywords.foldl
    (fun acc kw => if occursIn kw chunk_lower then acc + 2 else acc) base

/-- The `contains_license_terms` metadata computation of line 222. -/
def contains_license_terms_flag (chunk : String) : Bool :=
  license_flag_terms.any (fun t => occursIn t (pyLower chunk))

/-- A chunk document as built on lines 217-224: text plus the metadata
fields. -/
structure ChunkDoc where
  page_content : String
  importance_score : Nat
  chunk_index : Nat
  contains_license_terms : Bool
deriving DecidableEq, Repr

/-- The pair built for a kept chunk on line 210: the chunk text with
its importance score. -/
def scored_chunks_of (important_terms : List String)
    (chunks : List String) : List (String × Nat) :=
  chunks.filterMap
    (fun chunk =>
      if pyStrip chunk == "" then none
      else some (chunk, chunk_score important_terms chunk))

/-- The document built for one sorted, enumerated scored chunk (lines
217-224). -/
def chunk_doc_of (p : Nat × (String × Nat)) : ChunkDoc :=
  { page_content := p.2.1
    importance_score := p.2.2
    chunk_index := p.1
    contains_license_terms := contains_license_terms_flag p.2.1 }

/-- The function `create_smart_chunks` of lines 172-227.  The
`RecursiveCharacterTextSplitter` is an external collaborator passed as
`split_text`.  Blank chunks are skipped (line 193), the remaining
chunks are scored, sorted stably by descending score (line 213,
modelled by insertion with a strict comparison), and each document
carries its score, its ordinal index in the sorted order, and the
domain-term flag. -/
def create_smart_chunks (split_text : String → List String)
    (text : String) (important_terms : List String) : List ChunkDoc :=
  let chunks := split_text text
  let scored_chunks := scored_chunks_of important_terms chunks
  let sorted := sortOrd (fun a b => decide (b.2 < a.2)) scored_chunks
  sorted.enum.map chunk_doc_of

/-- The score-accumulating loop equals a count: helper for restating
`chunk_score` as the claim phrases it. -/
theorem foldl_count_add {α : Type} (p : α → Bool) (k : Nat)
    (l : List α) :
    ∀ acc : Nat,
      l.foldl (fun a x => if p x then a + k else a) acc =
        acc + k * l.countP p := by
  induction l with
  | nil => intro acc; simp
  | cons x xs ih =>
    intro acc
    rw [List.foldl_cons, List.countP_cons]
    by_cases hx : p x = true
    · rw [if_pos hx, ih, if_pos hx]
      ring
    · rw [if_neg hx, ih, if_neg hx]
      ring

/-- The score `chunk_score` counted out: number of matching top-20 terms plus
twice the number of matching domain keywords. -/
theorem chunk_score_eq (important_terms : List String) (chunk : String) :
    chunk_score important_terms chunk =
      (important_terms.take 20).countP
          (fun t => occursIn (pyLower t) (pyLower chunk)) +
        2 * license_keywords.countP
          (fun kw => occursIn kw (pyLower chunk)) := by
  simp only [chunk_score, foldl_count_add]
  ring

/-- Every scored pair carries the score of its own text. -/
theorem scored_pair_score (important_terms : List String)
    (chunks : List String) (p : String × Nat)
    (hp : p ∈ scored_chunks_of important_terms chunks) :
    p.2 = chunk_score important_terms p.1 := by
  rcases List.mem_filterMap.1 hp with ⟨c, _, he⟩
  by_cases h0 : pyStrip c == ""
  · rw [if_pos h0] at he
    cases he
  · rw [if_neg h0] at he
    cases he
    rfl

/-- Reading one document out of the enumerated, mapped sorted list. -/
theorem docs_get (sorted : List (String × Nat)) (i : Nat)
    (hi : i < (sorted.enum.map chunk_doc_of).length)
    (hi2 : i < sorted.length) :
    (sorted.enum.map chunk_doc_of).get ⟨i, hi⟩ =
      chunk_doc_of (i, sorted.get ⟨i, hi2⟩) := by
  simp [List.get_eq_getElem, List.getElem_map, List.getElem_enum]

/-- Claim C8: every produced chunk document carries as metadata its
ordinal index (equal to its position in the output list), its
importance score — which equals the number of top-20 important terms
occurring in the chunk plus two for each domain keyword occurring in
it, both by case-insensitive substring match — and the domain-term
flag; and the output list is ordered by descending importance score. -/
theorem c8_chunk_scoring (split_text : String → List String)
    (text : String) (important_terms : List String)
    (docs : List ChunkDoc)
    (hdocs : docs = create_smart_chunks split_text text important_terms) :
    (∀ i (hi : i < docs.length),
      (docs.get ⟨i, hi⟩).chunk_index = i ∧
      (docs.get ⟨i, hi⟩).importance_score =
        (important_terms.take 20).countP
            (fun t => occursIn (pyLower t)
              (pyLower (docs.get ⟨i, hi⟩).page_content)) +
          2 * license_keywords.countP
            (fun kw => occursIn kw
              (pyLower (docs.get ⟨i, hi⟩).page_content)) ∧
      (docs.get ⟨i, hi⟩).contains_license_terms =
        contains_license_terms_flag (docs.get ⟨i, hi⟩).page_content) ∧
    (∀ i j (hi : i < docs.length) (hj : j < docs.length), i < j →
      (docs.get ⟨j, hj⟩).importance_score ≤
        (docs.get ⟨i, hi⟩).importance_score) := by
  have hdocs2 : docs =
      (sortOrd (fun a b : String × Nat => decide (b.2 < a.2))
        (scored_chunks_of important_terms
          (split_text text))).enum.map chunk_doc_of := hdocs
  subst hdocs2
  have hlen :
      ((sortOrd (fun a b : String × Nat => decide (b.2 < a.2))
        (scored_chunks_of important_terms
          (split_text text))).enum.map chunk_doc_of).length =
      (sortOrd (fun a b : String × Nat => decide (b.2 < a.2))
        (scored_chunks_of important_terms (split_text text))).length := by
    simp
  have hpair :
      (sortOrd (fun a b : String × Nat => decide (b.2 < a.2))
        (scored_chunks_of important_terms (split_text text))).Pairwise
        (fun a b => b.2 ≤ a.2) := by
    refine pairwise_sortOrd _ _ ?_ ?_ ?_ _
    · intro x y h
      exact Nat.le_of_lt (of_decide_eq_true h)
    · intro x y h
      exact Nat.le_of_not_lt (of_decide_eq_false h)
    · intro x y z hxy hyz
      exact le_trans hyz hxy
  constructor
  · intro i hi
    have hi2 : i <
        (sortOrd (fun a b : String × Nat => decide (b.2 < a.2))
          (scored_chunks_of important_terms
            (split_text text))).length := hlen ▸ hi
    rw [docs_get _ i hi hi2]
    refine ⟨rfl, ?_, rfl⟩
    have hmem :
        (sortOrd (fun a b : String × Nat => decide (b.2 < a.2))
          (scored_chunks_of important_terms (split_text text))).get
          ⟨i, hi2⟩ ∈
        scored_chunks_of important_terms (split_text text) :=
      (mem_sortOrd _ _ _).1 (List.get_mem _ _ _)
    show ((sortOrd (fun a b : String × Nat => decide (b.2 < a.2))
        (scored_chunks_of important_terms (split_text text))).get
        ⟨i, hi2⟩).2 = _
    rw [scored_pair_score important_terms (split_text text) _ hmem]
    exact chunk_score_eq important_terms _
  · intro i j hi hj hij
    have hi2 : i <
        (sortOrd (fun a b : String × Nat => decide (b.2 < a.2))
          (scored_chunks_of important_terms
            (split_text text))).length := hlen ▸ hi
    have hj2 : j <
        (sortOrd (fun a b : String × Nat => decide (b.2 < a.2))
          (scored_chunks_of important_terms
            (split_text text))).length := hlen ▸ hj
    rw [docs_get _ i hi hi2, docs_get _ j hj hj2]
    exact List.pairwise_iff_get.1 hpair ⟨i, hi2⟩ ⟨j, hj2⟩ hij

/-- A concrete text splitter for the C8 witness: two content chunks
and one blank chunk. -/
def sampleSplit : String → List String :=
  fun _ => ["the g1 test", "nothing here", "   "]

/-- Claim C8, witness: at a concrete splitter output, the first
document carries index 0 and the second document scores no higher than
the first. -/
theorem c8_witness :
    ((create_smart_chunks sampleSplit "input" ["g1", "road"]).get
        ⟨0, by decide⟩).chunk_index = 0 ∧
    ((create_smart_chunks sampleSplit "input" ["g1", "road"]).get
        ⟨1, by decide⟩).importance_score ≤
      ((create_smart_chunks sampleSplit "input" ["g1", "road"]).get
        ⟨0, by decide⟩).importance_score :=
  ⟨((c8_chunk_scoring sampleSplit "input" ["g1", "road"] _ rfl).1 0
      (by decide)).1,
   (c8_chunk_scoring sampleSplit "input" ["g1", "road"] _ rfl).2 0 1
      (by decide) (by decide) (by decide)⟩

end AskMTO

